import Mathlib

/-
  Verification development for the Deno App Store server library's
  signed-data verifier (`SignedDataVerifier` and its helpers).

  The embedding below is a shallow translation of the verifier module
  (the file defining `SignedDataVerifier`, `VerificationStatus`,
  `VerificationException` and `CacheValue`).  JavaScript runtime
  primitives that the module merely calls (base64url decoding,
  `TextDecoder`, `JSON.parse`, `atob`, WebCrypto key generation) are
  external to the repository and are modelled abstractly: parsed JSON
  values are an inductive `Json` type, and the composite operation
  "base64url-decode then UTF-8-decode then JSON.parse" is a parameter
  (`JsPrims`), with `none` standing for a thrown decode error.
  Exceptions are modelled by `Except`; thrown `VerificationException`
  values and raw JavaScript errors are the two constructors of
  `JsError`.  Asynchronous methods are modelled as pure functions:
  each `await` in the source resolves immediately and deterministically.
-/

namespace AppStore

/-- Modelled from the spec: the file defining the `Environment` enum is not
among the sources; the spec fixes the value set
{PRODUCTION, SANDBOX, XCODE, LOCAL_TESTING}.  In the source the enum
members are strings (a payload's `environment` field is compared against
them directly with `!==`), so the model carries a string value for each
member via `envString`; claims depend only on the four values being
pairwise distinct. -/
inductive Environment where
  | production
  | sandbox
  | xcode
  | localTesting
  deriving DecidableEq

/-- Modelled from the spec: the string value of each `Environment` member,
as used in payload comparisons (the spec's scenario section uses
"Sandbox"/"Production" for the payload-side values). -/
def envString : Environment → String
  | .production => "Production"
  | .sandbox => "Sandbox"
  | .xcode => "Xcode"
  | .localTesting => "LocalTesting"

/-- The `VerificationStatus` enum of the verifier module. -/
inductive VerificationStatus where
  | OK
  | VERIFICATION_FAILURE
  | INVALID_APP_IDENTIFIER
  | INVALID_ENVIRONMENT
  | INVALID_CHAIN_LENGTH
  | INVALID_CERTIFICATE
  | FAILURE
  deriving DecidableEq

/-- A parsed JSON value (the result of the runtime's JSON.parse).
Numbers are modelled as integers: the claims only use identifier and
date fields, which are integral. -/
inductive Json where
  | null
  | bool (b : Bool)
  | num (n : Int)
  | str (s : String)
  | arr (elems : List Json)
  | obj (fields : List (String × Json))

/-- A thrown JavaScript error: either a `VerificationException` (with its
status and optional `cause`), or any other runtime error (TypeError,
decode error, ...), identified only by a tag. -/
inductive JsError where
  | verification (status : VerificationStatus) (cause : Option JsError)
  | other (tag : String)

/-- JavaScript property access `j[k]` on a parsed JSON value: a field of an
object, `none` (undefined) otherwise.  (Property access on JSON `null`,
which throws in JavaScript, is not exercised by any claim; theorems that
reach property access constrain the value to be an object.) -/
def Json.getField (j : Json) (k : String) : Option Json :=
  match j with
  | .obj fields => fields.lookup k
  | _ => none

/-- JavaScript truthiness of a JSON value. -/
def Json.isTruthy : Json → Bool
  | .null => false
  | .bool b => b
  | .num n => n ≠ 0
  | .str s => s ≠ ""
  | .arr _ => true
  | .obj _ => true

/-- A field read as a string; `none` when absent or not a string (a
non-string value compared with `!==` against a string never matches,
exactly like an absent one). -/
def Json.strField (j : Json) (k : String) : Option String :=
  match j.getField k with
  | some (.str s) => some s
  | _ => none

/-- A field read as a number; `none` when absent or not a number. -/
def Json.numField (j : Json) (k : String) : Option Int :=
  match j.getField k with
  | some (.num n) => some n
  | _ => none

/-- The branch test `if (decodedJWT.data) ...`: the field when it is
present and truthy, `none` otherwise. -/
def Json.branchField (j : Json) (k : String) : Option Json :=
  match j.getField k with
  | some v => if v.isTruthy then some v else none
  | none => none

/-- External JavaScript runtime primitives used by the verifier module.
`parseB64Json` is the composite
JSON.parse(new TextDecoder().decode(decode(part))) applied to a
base64url part — `none` models a throw in any of the three stages.
`atobBytes` is atob followed by per-character char codes — `none` models
an atob throw on invalid base64. -/
structure JsPrims where
  parseB64Json : String → Option Json
  atobBytes : String → Option (List Nat)

/-- MAX_SKEW from the verifier module (unused by it, kept for fidelity). -/
def MAX_SKEW : Nat := 60000

/-- MAXIMUM_CACHE_SIZE from the verifier module. -/
def MAXIMUM_CACHE_SIZE : Nat := 32

/-- CACHE_TIME_LIMIT from the verifier module: 15 minutes in ms. -/
def CACHE_TIME_LIMIT : Nat := 15 * 60 * 1000

/-- A verified public key.  The module's chain validator is a placeholder
that generates a fresh mock ECDSA key; nothing downstream inspects it,
so a single abstract value suffices. -/
inductive PublicKey where
  | mock
  deriving DecidableEq

/-- The `CacheValue` class of the verifier module. -/
structure CacheValue where
  publicKey : PublicKey
  cacheExpiry : Int
  deriving DecidableEq

/-- The configuration fields a `SignedDataVerifier` instance carries
(`rootCertificates`, `enableOnlineChecks`, `bundleId`, `appAppleId`,
`environment`).  Certificates are byte lists. -/
structure VerifierConfig where
  rootCertificates : List (List Nat)
  enableOnlineChecks : Bool
  environment : Environment
  bundleId : String
  appAppleId : Option Int
  deriving DecidableEq

/-- The mutable state of a `SignedDataVerifier` instance: the
`verifiedPublicKeyCache` field, plus `chainCalls`, an observational
counter instrumenting how many times the chain-validation primitive
(`verifyCertificateChain`'s body) has run — it is not program state and
no control flow reads it. -/
structure VerifierState where
  cache : List (String × CacheValue)
  chainCalls : Nat
  deriving DecidableEq

/-- The `SignedDataVerifier` constructor: records the configuration and
throws (models as `.error`) when the environment is PRODUCTION and no
appAppleId was supplied. -/
def SignedDataVerifier.construct (appleRootCertificates : List (List Nat))
    (enableOnlineChecks : Bool) (environment : Environment)
    (bundleId : String) (appAppleId : Option Int) :
    Except String VerifierConfig :=
  if environment = .production ∧ appAppleId = none then
    .error ("appAppleId is required when the environment is Production")
  else
    .ok { rootCertificates := appleRootCertificates,
          enableOnlineChecks := enableOnlineChecks,
          environment := environment,
          bundleId := bundleId,
          appAppleId := appAppleId }

/-- JavaScript's `jwt.split('.')` (split on the one-character separator). -/
def splitOnChar (sep : Char) : List Char → List (List Char)
  | [] => [[]]
  | c :: rest =>
    let r := splitOnChar sep rest
    if c = sep then [] :: r
    else
      match r with
      | [] => [[c]]
      | g :: gs => (c :: g) :: gs

/-- The parts of a JWT string: `jwt.split('.')`. -/
def stringSplitDot (s : String) : List String :=
  (splitOnChar '.' s.data).map (fun cs => String.mk cs)

/-- `extractSignedDate`: the payload's `signedDate` when present
(a numeric epoch value), the current time when `undefined`.  A present
non-numeric value is mapped to 0; the effective date is ignored by the
placeholder chain validator, so this choice is unobservable. -/
def extractSignedDate (decodedJWT : Json) (now : Int) : Int :=
  match decodedJWT.getField ("signedDate") with
  | none => now
  | some (.num n) => n
  | some _ => 0

/-- The app-transaction signed-date extractor: `receiptCreationDate` when
present, current time otherwise. -/
def appTransactionSignedDate (t : Json) (now : Int) : Int :=
  match t.getField ("receiptCreationDate") with
  | none => now
  | some (.num n) => n
  | some _ => 0

/-- `verifyCertificateChain`: the module's placeholder.  It generates and
returns a mock public key, and neither reads nor writes
`verifiedPublicKeyCache`.  The instrumentation counter `chainCalls`
records the invocation. -/
def verifyCertificateChain (trustedRoots : List (List Nat))
    (leaf : List Nat) (intermediate : List Nat) (effectiveDate : Int)
    (st : VerifierState) : PublicKey × VerifierState :=
  (PublicKey.mock, { st with chainCalls := st.chainCalls + 1 })

/-- The header value `headerObj['x5c'] ?? []` read as an array.  A present
value that is neither `null` nor an array makes the subsequent
`.length`/`.slice`/`.map`/atob steps of the source throw inside the inner
try block; that is collapsed here to an immediate `.other` error, which
produces the same observable VERIFICATION_FAILURE status. -/
def x5cArray (headerObj : Json) : Except JsError (List Json) :=
  match headerObj.getField ("x5c") with
  | none => .ok []
  | some .null => .ok []
  | some (.arr elems) => .ok elems
  | some _ => .error (.other ("x5c is not an array"))

/-- One certificate entry converted to bytes:
`new Uint8Array(atob(cert).split('').map(c => c.charCodeAt(0)))`.
A non-string entry makes atob throw (modelled as `none`, like an invalid
base64 string). -/
def certBytes (js : JsPrims) : Json → Option (List Nat)
  | .str s => js.atobBytes s
  | _ => none

/-- The body of the inner try block of `verifyJWT` (header decode, x5c
extraction, chain-length check, certificate conversion, chain
validation). -/
def verifyJWTChainPhase (cfg : VerifierConfig) (js : JsPrims)
    (signedDateExtractor : Json → Int → Int) (p0 : String)
    (decodedJWT : Json) (now : Int) (st : VerifierState) :
    Except JsError Json × VerifierState :=
  match js.parseB64Json p0 with
  | none => (.error (.other ("header decode")), st)
  | some headerObj =>
    match x5cArray headerObj with
    | .error e => (.error e, st)
    | .ok chain =>
      match chain with
      | [c0, c1, _c2] =>
        match certBytes js c0, certBytes js c1 with
        | some leaf, some intermediate =>
          let effectiveDate := signedDateExtractor decodedJWT now
          let pkSt := verifyCertificateChain cfg.rootCertificates leaf
            intermediate effectiveDate st
          (.ok decodedJWT, pkSt.2)
        | _, _ => (.error (.other ("atob")), st)
      | _ => (.error (.verification .INVALID_CHAIN_LENGTH none), st)

/-- `SignedDataVerifier.verifyJWT`.  The outer try block: split into three
parts (any other count throws FAILURE), decode and parse the payload part
(a decode throw is re-wrapped as FAILURE with a cause), run the
structural validator (rejection throws FAILURE), return the unverified
payload for XCODE/LOCAL_TESTING, and otherwise run the inner try block,
whose every error — the INVALID_CHAIN_LENGTH throw included — is caught
and re-wrapped as VERIFICATION_FAILURE with the original error as cause.
A VerificationException reaching the outer catch is re-thrown unchanged;
anything else is wrapped as FAILURE. -/
def verifyJWT (cfg : VerifierConfig) (js : JsPrims)
    (validator : Json → Bool) (signedDateExtractor : Json → Int → Int)
    (jwt : String) (now : Int) (st : VerifierState) :
    Except JsError Json × VerifierState :=
  match stringSplitDot jwt with
  | [p0, p1, _sig] =>
    match js.parseB64Json p1 with
    | none => (.error (.verification .FAILURE (some (.other ("payload decode")))), st)
    | some decodedJWT =>
      if validator decodedJWT then
        if cfg.environment = .xcode ∨ cfg.environment = .localTesting then
          (.ok decodedJWT, st)
        else
          match verifyJWTChainPhase cfg js signedDateExtractor p0 decodedJWT now st with
          | (.ok v, st') => (.ok v, st')
          | (.error e, st') =>
            (.error (.verification .VERIFICATION_FAILURE (some e)), st')
      else
        (.error (.verification .FAILURE none), st)
  | _ => (.error (.verification .FAILURE none), st)

/-- `verifyAndDecodeTransaction`: generic verification with the
transaction validator (abstract here, as the validator classes live
outside the verifier module), then the bundleId and environment identity
checks. -/
def verifyAndDecodeTransaction (cfg : VerifierConfig) (js : JsPrims)
    (validator : Json → Bool) (signedTransactionInfo : String)
    (now : Int) (st : VerifierState) :
    Except JsError Json × VerifierState :=
  match verifyJWT cfg js validator extractSignedDate signedTransactionInfo now st with
  | (.error e, st') => (.error e, st')
  | (.ok decodedJWT, st') =>
    if decodedJWT.strField ("bundleId") ≠ some cfg.bundleId then
      (.error (.verification .INVALID_APP_IDENTIFIER none), st')
    else if decodedJWT.strField ("environment") ≠ some (envString cfg.environment) then
      (.error (.verification .INVALID_ENVIRONMENT none), st')
    else
      (.ok decodedJWT, st')

/-- `verifyAndDecodeRenewalInfo`: generic verification with the
renewal-info validator, then the environment check only — the source
performs no bundleId check for renewal info. -/
def verifyAndDecodeRenewalInfo (cfg : VerifierConfig) (js : JsPrims)
    (validator : Json → Bool) (signedRenewalInfo : String)
    (now : Int) (st : VerifierState) :
    Except JsError Json × VerifierState :=
  match verifyJWT cfg js validator extractSignedDate signedRenewalInfo now st with
  | (.error e, st') => (.error e, st')
  | (.ok decodedRenewalInfo, st') =>
    if some (envString cfg.environment) ≠ decodedRenewalInfo.strField ("environment") then
      (.error (.verification .INVALID_ENVIRONMENT none), st')
    else
      (.ok decodedRenewalInfo, st')

/-- JavaScript's String.prototype.startsWith, character by character. -/
def charsStartWith : List Char → List Char → Bool
  | _, [] => true
  | [], _ :: _ => false
  | c :: cs, p :: ps => c = p && charsStartWith cs ps

/-- `s.startsWith(p)` for strings. -/
def strStartsWith (s p : String) : Bool := charsStartWith s.data p.data

/-- The identity-field extraction of `verifyAndDecodeNotification`
(appAppleId, bundleId, environment), consulting `data`, then `summary`,
then `externalPurchaseToken`, each under a JavaScript truthiness test.
For the externalPurchaseToken branch the environment is derived: SANDBOX
when `externalPurchaseId` is a truthy string starting with "SANDBOX",
PRODUCTION when it is absent or falsy; a truthy non-string value makes
`.startsWith` throw a TypeError that `verifyAndDecodeNotification` does
not catch, modelled as an `.other` error. -/
def extractNotificationIdentity (decodedJWT : Json) :
    Except JsError (Option Int × Option String × Option String) :=
  match decodedJWT.branchField ("data") with
  | some d =>
    .ok (d.numField ("appAppleId"), d.strField ("bundleId"), d.strField ("environment"))
  | none =>
    match decodedJWT.branchField ("summary") with
    | some s =>
      .ok (s.numField ("appAppleId"), s.strField ("bundleId"), s.strField ("environment"))
    | none =>
      match decodedJWT.branchField ("externalPurchaseToken") with
      | some e =>
        match e.getField ("externalPurchaseId") with
        | some (.str pid) =>
          .ok (e.numField ("appAppleId"), e.strField ("bundleId"),
            some (if strStartsWith pid ("SANDBOX") then envString .sandbox else envString .production))
        | some v =>
          if v.isTruthy then
            .error (.other ("startsWith is not a function"))
          else
            .ok (e.numField ("appAppleId"), e.strField ("bundleId"),
              some (envString .production))
        | none =>
          .ok (e.numField ("appAppleId"), e.strField ("bundleId"),
            some (envString .production))
      | none => .ok (none, none, none)

/-- The protected `verifyNotification` check: bundleId must equal the
configured one and, when the configured environment is PRODUCTION, the
appAppleId must equal the configured one, else INVALID_APP_IDENTIFIER;
then the environment must equal the configured one, else
INVALID_ENVIRONMENT. -/
def verifyNotification (cfg : VerifierConfig) (bundleId : Option String)
    (appAppleId : Option Int) (environment : Option String) :
    Except JsError Unit :=
  if some cfg.bundleId ≠ bundleId ∨
      (cfg.environment = .production ∧ cfg.appAppleId ≠ appAppleId) then
    .error (.verification .INVALID_APP_IDENTIFIER none)
  else if some (envString cfg.environment) ≠ environment then
    .error (.verification .INVALID_ENVIRONMENT none)
  else
    .ok ()

/-- `verifyAndDecodeNotification`: generic verification with the
notification validator, identity-field extraction, then the
`verifyNotification` check. -/
def verifyAndDecodeNotification (cfg : VerifierConfig) (js : JsPrims)
    (validator : Json → Bool) (signedPayload : String)
    (now : Int) (st : VerifierState) :
    Except JsError Json × VerifierState :=
  match verifyJWT cfg js validator extractSignedDate signedPayload now st with
  | (.error e, st') => (.error e, st')
  | (.ok decodedJWT, st') =>
    match extractNotificationIdentity decodedJWT with
    | .error e => (.error e, st')
    | .ok ids =>
      match verifyNotification cfg ids.2.1 ids.1 ids.2.2 with
      | .error e => (.error e, st')
      | .ok _ => (.ok decodedJWT, st')

/-- `verifyAndDecodeAppTransaction`: generic verification with the
app-transaction validator and the receipt-creation-date extractor, then
the bundleId/appAppleId check (appAppleId only in PRODUCTION) and the
environment check against `receiptType`. -/
def verifyAndDecodeAppTransaction (cfg : VerifierConfig) (js : JsPrims)
    (validator : Json → Bool) (signedAppTransaction : String)
    (now : Int) (st : VerifierState) :
    Except JsError Json × VerifierState :=
  match verifyJWT cfg js validator appTransactionSignedDate signedAppTransaction now st with
  | (.error e, st') => (.error e, st')
  | (.ok decodedAppTransaction, st') =>
    if some cfg.bundleId ≠ decodedAppTransaction.strField ("bundleId") ∨
        (cfg.environment = .production ∧
          cfg.appAppleId ≠ decodedAppTransaction.numField ("appAppleId")) then
      (.error (.verification .INVALID_APP_IDENTIFIER none), st')
    else if some (envString cfg.environment) ≠ decodedAppTransaction.strField ("receiptType") then
      (.error (.verification .INVALID_ENVIRONMENT none), st')
    else
      (.ok decodedAppTransaction, st')

/-! Concrete test fixtures: a parse-primitive instance mapping short part
names to parsed JSON values, and configurations used by the concrete
evaluations below.  These are inputs to the theorems, not part of the
embedding. -/

/-- A header whose x5c chain has three entries. -/
def header3 : Json :=
  .obj [(("x5c"), .arr [.str ("QUE="), .str ("QkI="), .str ("Q0M=")])]

/-- A header whose x5c chain has two entries. -/
def header2 : Json :=
  .obj [(("x5c"), .arr [.str ("QUE="), .str ("QkI=")])]

/-- A transaction-shaped payload for the sandbox fixture configuration. -/
def payload1 : Json :=
  .obj [(("bundleId"), .str ("com.example")), (("environment"), .str ("Sandbox"))]

/-- A renewal-info-shaped payload whose bundleId differs from the fixture
configuration's. -/
def renewalPayload : Json :=
  .obj [(("bundleId"), .str ("evil.example")), (("environment"), .str ("Sandbox"))]

/-- A payload with none of the notification branch objects populated. -/
def emptyPayload : Json := .obj []

/-- A payload matching the xcode fixture configuration for all four typed
operations (transaction, renewal info, notification via the data branch,
and app transaction via receiptType). -/
def xcodePayload : Json :=
  .obj [(("bundleId"), .str ("com.example")),
        (("environment"), .str ("Xcode")),
        (("receiptType"), .str ("Xcode")),
        (("data"), .obj [(("bundleId"), .str ("com.example")),
                         (("environment"), .str ("Xcode"))])]

/-- A notification payload populated only in its externalPurchaseToken
branch, with a SANDBOX-prefixed purchase id. -/
def eptPayloadSandbox : Json :=
  .obj [(("externalPurchaseToken"),
    .obj [(("externalPurchaseId"), .str ("SANDBOX_123")),
          (("bundleId"), .str ("com.example"))])]

/-- The fixture part table. -/
def fixtureParts : List (String × Json) :=
  [(("H3"), header3), (("H2"), header2), (("P1"), payload1),
   (("PR"), renewalPayload), (("PE"), emptyPayload), (("PX"), xcodePayload)]

/-- The fixture runtime primitives. -/
def fixturePrims : JsPrims :=
  { parseB64Json := fun s => fixtureParts.lookup s,
    atobBytes := fun _ => some [0] }

/-- A sandbox-environment verifier configuration. -/
def sandboxConfig : VerifierConfig :=
  { rootCertificates := [], enableOnlineChecks := false,
    environment := .sandbox, bundleId := ("com.example"), appAppleId := none }

/-- An xcode-environment verifier configuration. -/
def xcodeConfig : VerifierConfig :=
  { rootCertificates := [], enableOnlineChecks := false,
    environment := .xcode, bundleId := ("com.example"), appAppleId := none }

/-- A production-environment verifier configuration. -/
def productionConfig : VerifierConfig :=
  { rootCertificates := [], enableOnlineChecks := false,
    environment := .production, bundleId := ("com.example"),
    appAppleId := some 123 }

/-- The initial verifier state: empty cache, no chain validations yet. -/
def st0 : VerifierState := ⟨[], 0⟩

/-- The structural validator accepting everything (the structural checks
are abstract; claims fix the validator verdict by hypothesis). -/
def acceptAll : Json → Bool := fun _ => true

/-- C7: constructing a SignedDataVerifier with environment PRODUCTION and no
appAppleId throws at construction time, before any verify call;
constructing with any other environment and no appAppleId succeeds. -/
theorem construct_production_requires_appAppleId
    (roots : List (List Nat)) (online : Bool) (bid : String) :
    (∃ msg, SignedDataVerifier.construct roots online .production bid none
        = .error msg) ∧
    ∀ env : Environment, env ≠ .production →
      SignedDataVerifier.construct roots online env bid none
        = .ok { rootCertificates := roots, enableOnlineChecks := online,
                environment := env, bundleId := bid, appAppleId := none } := by
  constructor
  · exact ⟨("appAppleId is required when the environment is Production"),
      by simp [SignedDataVerifier.construct]⟩
  · intro env henv
    simp [SignedDataVerifier.construct, henv]

/-- Witness for C7 at a concrete configuration. -/
theorem construct_production_requires_appAppleId_witness :
    (∃ msg, SignedDataVerifier.construct [] true .production ("com.example") none
        = .error msg) ∧
    SignedDataVerifier.construct [] true .sandbox ("com.example") none
      = .ok { rootCertificates := [], enableOnlineChecks := true,
              environment := .sandbox, bundleId := ("com.example"),
              appAppleId := none } :=
  ⟨(construct_production_requires_appAppleId [] true ("com.example")).1,
   (construct_production_requires_appAppleId [] true ("com.example")).2
     .sandbox (by decide)⟩

/-- C4: every malformed input — wrong part count, undecodable or unparsable
payload part, or payload rejected by the structural validator — makes
verifyJWT and all four typed operations fail with a VerificationException
of status FAILURE; the error is always a VerificationException, never a
raw error. -/
theorem verifyJWT_malformed_failure (cfg : VerifierConfig) (js : JsPrims)
    (validator : Json → Bool) (ex : Json → Int → Int) (jwt : String)
    (now : Int) (st : VerifierState)
    (hmal : (stringSplitDot jwt).length ≠ 3 ∨
      ∃ p0 p1 p2, stringSplitDot jwt = [p0, p1, p2] ∧
        (js.parseB64Json p1 = none ∨
          ∃ pl, js.parseB64Json p1 = some pl ∧ validator pl = false)) :
    ∃ c, verifyJWT cfg js validator ex jwt now st
        = (.error (.verification .FAILURE c), st) ∧
      verifyAndDecodeTransaction cfg js validator jwt now st
        = (.error (.verification .FAILURE c), st) ∧
      verifyAndDecodeRenewalInfo cfg js validator jwt now st
        = (.error (.verification .FAILURE c), st) ∧
      verifyAndDecodeNotification cfg js validator jwt now st
        = (.error (.verification .FAILURE c), st) ∧
      verifyAndDecodeAppTransaction cfg js validator jwt now st
        = (.error (.verification .FAILURE c), st) := by
  have main : ∃ c, ∀ ex' : Json → Int → Int,
      verifyJWT cfg js validator ex' jwt now st
        = (.error (.verification .FAILURE c), st) := by
    rcases hmal with hlen | ⟨p0, p1, p2, hsplit, hrest⟩
    · refine ⟨none, fun ex' => ?_⟩
      rcases h : stringSplitDot jwt with _ | ⟨a, _ | ⟨b, _ | ⟨c, _ | ⟨d, rest⟩⟩⟩⟩
      · unfold verifyJWT; rw [h]
      · unfold verifyJWT; rw [h]
      · unfold verifyJWT; rw [h]
      · exact absurd (by simp [h]) hlen
      · unfold verifyJWT; rw [h]
    · rcases hrest with hnone | ⟨pl, hsome, hval⟩
      · exact ⟨some (.other ("payload decode")),
          fun ex' => by simp [verifyJWT, hsplit, hnone]⟩
      · exact ⟨none, fun ex' => by simp [verifyJWT, hsplit, hsome, hval]⟩
  rcases main with ⟨c, hc⟩
  refine ⟨c, hc extractSignedDate, ?_, ?_, ?_, ?_⟩
  · simp [verifyAndDecodeTransaction, hc extractSignedDate]
  · simp [verifyAndDecodeRenewalInfo, hc extractSignedDate]
  · simp [verifyAndDecodeNotification, hc extractSignedDate]
  · simp [verifyAndDecodeAppTransaction, hc appTransactionSignedDate]

/-- Witness for C4: a two-part input and an input whose payload the
validator rejects, both failing with status FAILURE. -/
theorem verifyJWT_malformed_failure_witness :
    (∃ c, verifyJWT sandboxConfig fixturePrims acceptAll extractSignedDate
        ("onlyone") 0 st0 = (.error (.verification .FAILURE c), st0) ∧
      verifyAndDecodeTransaction sandboxConfig fixturePrims acceptAll
        ("onlyone") 0 st0 = (.error (.verification .FAILURE c), st0) ∧
      verifyAndDecodeRenewalInfo sandboxConfig fixturePrims acceptAll
        ("onlyone") 0 st0 = (.error (.verification .FAILURE c), st0) ∧
      verifyAndDecodeNotification sandboxConfig fixturePrims acceptAll
        ("onlyone") 0 st0 = (.error (.verification .FAILURE c), st0) ∧
      verifyAndDecodeAppTransaction sandboxConfig fixturePrims acceptAll
        ("onlyone") 0 st0 = (.error (.verification .FAILURE c), st0)) ∧
    (∃ c, verifyJWT sandboxConfig fixturePrims (fun _ => false)
        extractSignedDate ("H3.P1.sig") 0 st0
        = (.error (.verification .FAILURE c), st0) ∧
      verifyAndDecodeTransaction sandboxConfig fixturePrims (fun _ => false)
        ("H3.P1.sig") 0 st0 = (.error (.verification .FAILURE c), st0) ∧
      verifyAndDecodeRenewalInfo sandboxConfig fixturePrims (fun _ => false)
        ("H3.P1.sig") 0 st0 = (.error (.verification .FAILURE c), st0) ∧
      verifyAndDecodeNotification sandboxConfig fixturePrims (fun _ => false)
        ("H3.P1.sig") 0 st0 = (.error (.verification .FAILURE c), st0) ∧
      verifyAndDecodeAppTransaction sandboxConfig fixturePrims (fun _ => false)
        ("H3.P1.sig") 0 st0 = (.error (.verification .FAILURE c), st0)) :=
  ⟨verifyJWT_malformed_failure sandboxConfig fixturePrims acceptAll
      extractSignedDate ("onlyone") 0 st0 (Or.inl (by decide)),
   verifyJWT_malformed_failure sandboxConfig fixturePrims (fun _ => false)
      extractSignedDate ("H3.P1.sig") 0 st0
      (Or.inr ⟨("H3"), ("P1"), ("sig"), by decide, Or.inr ⟨payload1, rfl, rfl⟩⟩)⟩

/-- Helper: verifyJWT never produces a VerificationException with status
INVALID_APP_IDENTIFIER — its error statuses are FAILURE and
VERIFICATION_FAILURE only. -/
theorem verifyJWT_no_app_identifier (cfg : VerifierConfig) (js : JsPrims)
    (validator : Json → Bool) (ex : Json → Int → Int) (jwt : String)
    (now : Int) (st : VerifierState) (c : Option JsError) :
    (verifyJWT cfg js validator ex jwt now st).1
      ≠ .error (.verification .INVALID_APP_IDENTIFIER c) := by
  unfold verifyJWT
  repeat' split
  all_goals simp

/-- C1 (refuting evaluation): in the SANDBOX environment, an envelope with a
well-formed three-entry certificate chain, a structurally valid payload, and
a garbage signature part is accepted: verifyJWT returns the decoded payload
and runs the chain-validation placeholder once, but never verifies the
signature bytes, so no VERIFICATION_FAILURE arises for an invalid
signature. -/
theorem verifyJWT_accepts_garbage_signature :
    verifyJWT sandboxConfig fixturePrims acceptAll extractSignedDate
      ("H3.P1.badsig") 0 st0 = (.ok payload1, ⟨[], 1⟩) ∧
    sandboxConfig.environment = Environment.sandbox :=
  ⟨rfl, rfl⟩

/-- C2 (refuting evaluation): in the SANDBOX environment, an envelope whose
header certificate chain has exactly two entries fails with status
VERIFICATION_FAILURE — the INVALID_CHAIN_LENGTH exception thrown by the
length check is caught by the inner catch block and re-wrapped, surviving
only as the cause. -/
theorem chain_length_two_is_wrapped :
    verifyJWT sandboxConfig fixturePrims acceptAll extractSignedDate
      ("H2.P1.sig") 0 st0
      = (.error (.verification .VERIFICATION_FAILURE
          (some (.verification .INVALID_CHAIN_LENGTH none))), st0) :=
  rfl

/-- C6 (refuting evaluation): two verify calls on the same verifier with the
byte-identical certificate chain, the second 60000 ms (well within the
15-minute TTL) after the first, both succeed, yet the chain-validation
primitive runs on each call (the counter reaches 2) and the
verified-public-key cache is still empty afterwards: the cache is never
consulted or populated. -/
theorem chain_validation_runs_every_call :
    60000 < CACHE_TIME_LIMIT ∧
    (verifyAndDecodeTransaction sandboxConfig fixturePrims acceptAll
        ("H3.P1.sig") 0 st0).1 = .ok payload1 ∧
    (verifyAndDecodeTransaction sandboxConfig fixturePrims acceptAll
        ("H3.P1.sig") 0 st0).2.chainCalls = 1 ∧
    (verifyAndDecodeTransaction sandboxConfig fixturePrims acceptAll
        ("H3.P1.sig") 60000
        (verifyAndDecodeTransaction sandboxConfig fixturePrims acceptAll
          ("H3.P1.sig") 0 st0).2).1 = .ok payload1 ∧
    (verifyAndDecodeTransaction sandboxConfig fixturePrims acceptAll
        ("H3.P1.sig") 60000
        (verifyAndDecodeTransaction sandboxConfig fixturePrims acceptAll
          ("H3.P1.sig") 0 st0).2).2.chainCalls = 2 ∧
    (verifyAndDecodeTransaction sandboxConfig fixturePrims acceptAll
        ("H3.P1.sig") 60000
        (verifyAndDecodeTransaction sandboxConfig fixturePrims acceptAll
          ("H3.P1.sig") 0 st0).2).2.cache = [] :=
  ⟨by decide, rfl, rfl, rfl, rfl, rfl⟩

/-- C3 counterexample: a renewal-info payload whose bundleId
("evil.example") differs from the configured bundleId ("com.example") is
accepted by verifyAndDecodeRenewalInfo — no INVALID_APP_IDENTIFIER is
raised, refuting the claim for the renewal-info operation. -/
theorem renewalInfo_bundleId_mismatch_accepted :
    (verifyAndDecodeRenewalInfo sandboxConfig fixturePrims acceptAll
        ("H3.PR.sig") 0 st0).1 = .ok renewalPayload ∧
    renewalPayload.strField ("bundleId") = some ("evil.example") ∧
    sandboxConfig.bundleId = ("com.example") :=
  ⟨rfl, rfl, rfl⟩

/-- C3 (amended): verifyAndDecodeTransaction fails with
INVALID_APP_IDENTIFIER whenever the decoded payload's bundleId differs from
the configured one, independent of signature validity;
verifyAndDecodeRenewalInfo performs no bundleId check at all and can never
fail with INVALID_APP_IDENTIFIER. -/
theorem transaction_bundleId_checked_renewal_not (cfg : VerifierConfig)
    (js : JsPrims) (validator : Json → Bool) (s : String) (now : Int)
    (st : VerifierState) :
    (∀ d st', verifyJWT cfg js validator extractSignedDate s now st = (.ok d, st') →
      d.strField ("bundleId") ≠ some cfg.bundleId →
      verifyAndDecodeTransaction cfg js validator s now st
        = (.error (.verification .INVALID_APP_IDENTIFIER none), st')) ∧
    ∀ c, (verifyAndDecodeRenewalInfo cfg js validator s now st).1
      ≠ .error (.verification .INVALID_APP_IDENTIFIER c) := by
  constructor
  · intro d st' hok hmis
    simp [verifyAndDecodeTransaction, hok, hmis]
  · intro c
    unfold verifyAndDecodeRenewalInfo
    rcases hv : verifyJWT cfg js validator extractSignedDate s now st with ⟨r, st'⟩
    have hno := verifyJWT_no_app_identifier cfg js validator
      extractSignedDate s now st c
    rw [hv] at hno
    rcases r with e | d
    · simpa using hno
    · by_cases henv : some (envString cfg.environment) = d.strField ("environment")
      · simp [henv]
      · simp [henv]

/-- Witness for C3's amended theorem: the mismatched renewal payload,
fed to verifyAndDecodeTransaction, is rejected with
INVALID_APP_IDENTIFIER, while verifyAndDecodeRenewalInfo does not produce
that status on the same input. -/
theorem transaction_bundleId_checked_renewal_not_witness :
    verifyAndDecodeTransaction sandboxConfig fixturePrims acceptAll
      ("H3.PR.sig") 0 st0
      = (.error (.verification .INVALID_APP_IDENTIFIER none), ⟨[], 1⟩) ∧
    (verifyAndDecodeRenewalInfo sandboxConfig fixturePrims acceptAll
        ("H3.PR.sig") 0 st0).1
      ≠ .error (.verification .INVALID_APP_IDENTIFIER none) :=
  ⟨(transaction_bundleId_checked_renewal_not sandboxConfig fixturePrims
      acceptAll ("H3.PR.sig") 0 st0).1 renewalPayload ⟨[], 1⟩ rfl (by decide),
   (transaction_bundleId_checked_renewal_not sandboxConfig fixturePrims
      acceptAll ("H3.PR.sig") 0 st0).2 none⟩

/-- C5: with a configured environment of XCODE or LOCAL_TESTING, any
three-part input whose payload parses and passes the structural validator
is returned by verifyJWT untouched — the header and signature parts are
never examined and the state (cache and chain-validation counter) is
unchanged — and each typed operation succeeds whenever the payload's
identity fields match the configuration, while an identity mismatch is
still rejected. -/
theorem bypass_environments_skip_verification (cfg : VerifierConfig)
    (js : JsPrims) (validator : Json → Bool) (jwt p0 p1 sig : String)
    (payload : Json) (now : Int) (st : VerifierState)
    (henv : cfg.environment = .xcode ∨ cfg.environment = .localTesting)
    (hsplit : stringSplitDot jwt = [p0, p1, sig])
    (hparse : js.parseB64Json p1 = some payload)
    (hval : validator payload = true) :
    (∀ ex : Json → Int → Int,
      verifyJWT cfg js validator ex jwt now st = (.ok payload, st)) ∧
    (payload.strField ("bundleId") = some cfg.bundleId →
      payload.strField ("environment") = some (envString cfg.environment) →
      verifyAndDecodeTransaction cfg js validator jwt now st
        = (.ok payload, st)) ∧
    (payload.strField ("environment") = some (envString cfg.environment) →
      verifyAndDecodeRenewalInfo cfg js validator jwt now st
        = (.ok payload, st)) ∧
    (∀ a b e, extractNotificationIdentity payload = .ok (a, b, e) →
      verifyNotification cfg b a e = .ok () →
      verifyAndDecodeNotification cfg js validator jwt now st
        = (.ok payload, st)) ∧
    (some cfg.bundleId = payload.strField ("bundleId") →
      some (envString cfg.environment) = payload.strField ("receiptType") →
      verifyAndDecodeAppTransaction cfg js validator jwt now st
        = (.ok payload, st)) ∧
    (payload.strField ("bundleId") ≠ some cfg.bundleId →
      verifyAndDecodeTransaction cfg js validator jwt now st
        = (.error (.verification .INVALID_APP_IDENTIFIER none), st)) := by
  have hjwt : ∀ ex : Json → Int → Int,
      verifyJWT cfg js validator ex jwt now st = (.ok payload, st) := by
    intro ex
    rcases henv with h | h <;> simp [verifyJWT, hsplit, hparse, hval, h]
  have hnotprod : ¬ cfg.environment = Environment.production := by
    rcases henv with h | h <;> simp [h]
  refine ⟨hjwt, ?_, ?_, ?_, ?_, ?_⟩
  · intro hb he
    simp [verifyAndDecodeTransaction, hjwt extractSignedDate, hb, he]
  · intro he
    simp [verifyAndDecodeRenewalInfo, hjwt extractSignedDate, he]
  · intro a b e hex hok
    simp [verifyAndDecodeNotification, hjwt extractSignedDate, hex, hok]
  · intro hb hrt
    simp [verifyAndDecodeAppTransaction, hjwt appTransactionSignedDate,
      hb.symm, hrt.symm, hnotprod]
  · intro hmis
    simp [verifyAndDecodeTransaction, hjwt extractSignedDate, hmis]

/-- Witness for C5: an xcode-environment verifier accepts an envelope whose
header and signature parts are garbage, for all four typed operations, and
still rejects a bundleId mismatch. -/
theorem bypass_environments_skip_verification_witness :
    verifyJWT xcodeConfig fixturePrims acceptAll extractSignedDate
      ("garbageheader.PX.garbagesig") 0 st0 = (.ok xcodePayload, st0) ∧
    verifyAndDecodeTransaction xcodeConfig fixturePrims acceptAll
      ("garbageheader.PX.garbagesig") 0 st0 = (.ok xcodePayload, st0) ∧
    verifyAndDecodeRenewalInfo xcodeConfig fixturePrims acceptAll
      ("garbageheader.PX.garbagesig") 0 st0 = (.ok xcodePayload, st0) ∧
    verifyAndDecodeNotification xcodeConfig fixturePrims acceptAll
      ("garbageheader.PX.garbagesig") 0 st0 = (.ok xcodePayload, st0) ∧
    verifyAndDecodeAppTransaction xcodeConfig fixturePrims acceptAll
      ("garbageheader.PX.garbagesig") 0 st0 = (.ok xcodePayload, st0) ∧
    verifyAndDecodeTransaction xcodeConfig fixturePrims acceptAll
      ("garbageheader.PR.garbagesig") 0 st0
      = (.error (.verification .INVALID_APP_IDENTIFIER none), st0) := by
  have h := bypass_environments_skip_verification xcodeConfig fixturePrims
    acceptAll ("garbageheader.PX.garbagesig") ("garbageheader") ("PX")
    ("garbagesig") xcodePayload 0 st0 (Or.inl rfl) (by decide) rfl rfl
  have h2 := bypass_environments_skip_verification xcodeConfig fixturePrims
    acceptAll ("garbageheader.PR.garbagesig") ("garbageheader") ("PR")
    ("garbagesig") renewalPayload 0 st0 (Or.inl rfl) (by decide) rfl rfl
  exact ⟨h.1 extractSignedDate, h.2.1 rfl rfl, h.2.2.1 rfl,
    h.2.2.2.1 none (some ("com.example")) (some ("Xcode")) rfl rfl,
    h.2.2.2.2.1 rfl rfl, h2.2.2.2.2.2 (by decide)⟩

/-- C10: a decoded notification payload with none of the data, summary, and
externalPurchaseToken branches populated leaves the extracted bundleId
absent, so verifyAndDecodeNotification fails with INVALID_APP_IDENTIFIER
whatever the configured bundleId is. -/
theorem notification_without_branch_fails (cfg : VerifierConfig)
    (js : JsPrims) (validator : Json → Bool) (s : String) (now : Int)
    (st st' : VerifierState) (payload : Json)
    (hok : verifyJWT cfg js validator extractSignedDate s now st
      = (.ok payload, st'))
    (hdata : payload.branchField ("data") = none)
    (hsummary : payload.branchField ("summary") = none)
    (hept : payload.branchField ("externalPurchaseToken") = none) :
    verifyAndDecodeNotification cfg js validator s now st
      = (.error (.verification .INVALID_APP_IDENTIFIER none), st') := by
  have hex : extractNotificationIdentity payload = .ok (none, none, none) := by
    simp [extractNotificationIdentity, hdata, hsummary, hept]
  have hvn : verifyNotification cfg none none none
      = .error (.verification .INVALID_APP_IDENTIFIER none) := by
    simp [verifyNotification]
  simp [verifyAndDecodeNotification, hok, hex, hvn]

/-- Witness for C10: the empty payload object makes
verifyAndDecodeNotification fail with INVALID_APP_IDENTIFIER. -/
theorem notification_without_branch_fails_witness :
    verifyAndDecodeNotification xcodeConfig fixturePrims acceptAll
      ("h.PE.s") 0 st0
      = (.error (.verification .INVALID_APP_IDENTIFIER none), st0) :=
  notification_without_branch_fails xcodeConfig fixturePrims acceptAll
    ("h.PE.s") 0 st0 st0 emptyPayload rfl rfl rfl rfl

/-- C8: the notification identity policy — the appAppleId is compared only
when the configured environment is PRODUCTION (for any other environment
the check's outcome is independent of the appAppleId); a bundleId mismatch
or, in PRODUCTION, an appAppleId mismatch raises INVALID_APP_IDENTIFIER;
an environment mismatch alone raises INVALID_ENVIRONMENT; and for a
payload populated only in its externalPurchaseToken branch the compared
environment is Sandbox exactly when the externalPurchaseId string starts
with "SANDBOX" and Production otherwise (absent ids included). -/
theorem notification_identity_policy :
    (∀ (cfg : VerifierConfig) (b e : Option String) (a a' : Option Int),
      cfg.environment ≠ .production →
      verifyNotification cfg b a e = verifyNotification cfg b a' e) ∧
    (∀ (cfg : VerifierConfig) (b e : Option String) (a : Option Int),
      cfg.environment = .production → b = some cfg.bundleId →
      a ≠ cfg.appAppleId →
      verifyNotification cfg b a e
        = .error (.verification .INVALID_APP_IDENTIFIER none)) ∧
    (∀ (cfg : VerifierConfig) (b e : Option String) (a : Option Int),
      b ≠ some cfg.bundleId →
      verifyNotification cfg b a e
        = .error (.verification .INVALID_APP_IDENTIFIER none)) ∧
    (∀ (cfg : VerifierConfig) (b e : Option String) (a : Option Int),
      b = some cfg.bundleId →
      (cfg.environment = .production → a = cfg.appAppleId) →
      e ≠ some (envString cfg.environment) →
      verifyNotification cfg b a e
        = .error (.verification .INVALID_ENVIRONMENT none)) ∧
    (∀ (payload ept : Json),
      payload.branchField ("data") = none →
      payload.branchField ("summary") = none →
      payload.branchField ("externalPurchaseToken") = some ept →
      (∀ pid, ept.getField ("externalPurchaseId") = some (.str pid) →
        extractNotificationIdentity payload
          = .ok (ept.numField ("appAppleId"), ept.strField ("bundleId"),
              some (if strStartsWith pid ("SANDBOX") then envString .sandbox
                else envString .production))) ∧
      (ept.getField ("externalPurchaseId") = none →
        extractNotificationIdentity payload
          = .ok (ept.numField ("appAppleId"), ept.strField ("bundleId"),
              some (envString .production)))) := by
  refine ⟨?_, ?_, ?_, ?_, ?_⟩
  · intro cfg b e a a' hne
    simp [verifyNotification, hne]
  · intro cfg b e a hprod hb ha
    simp [verifyNotification, hprod, hb, Ne.symm ha]
  · intro cfg b e a hb
    simp [verifyNotification, Ne.symm hb]
  · intro cfg b e a hb hprodimp he
    have hfirst : ¬ (some cfg.bundleId ≠ b ∨
        (cfg.environment = .production ∧ cfg.appAppleId ≠ a)) := by
      push_neg
      exact ⟨hb.symm, fun hp => (hprodimp hp).symm⟩
    simp [verifyNotification, hfirst, Ne.symm he]
  · intro payload ept hd hs hept
    refine ⟨?_, ?_⟩
    · intro pid hpid
      simp [extractNotificationIdentity, hd, hs, hept, hpid]
    · intro hnone
      simp [extractNotificationIdentity, hd, hs, hept, hnone]

/-- Witness for C8 at concrete inputs: sandbox ignores a changed appAppleId;
production rejects a wrong appAppleId and a wrong bundleId with
INVALID_APP_IDENTIFIER and a wrong environment with INVALID_ENVIRONMENT;
and a SANDBOX-prefixed externalPurchaseId yields the Sandbox environment. -/
theorem notification_identity_policy_witness :
    verifyNotification sandboxConfig (some ("com.example")) (some 1)
        (some ("Sandbox"))
      = verifyNotification sandboxConfig (some ("com.example")) (some 2)
        (some ("Sandbox")) ∧
    verifyNotification productionConfig (some ("com.example")) (some 999)
        (some ("Production"))
      = .error (.verification .INVALID_APP_IDENTIFIER none) ∧
    verifyNotification productionConfig (some ("other.bundle")) (some 123)
        (some ("Production"))
      = .error (.verification .INVALID_APP_IDENTIFIER none) ∧
    verifyNotification productionConfig (some ("com.example")) (some 123)
        (some ("Sandbox"))
      = .error (.verification .INVALID_ENVIRONMENT none) ∧
    extractNotificationIdentity eptPayloadSandbox
      = .ok (none, some ("com.example"), some ("Sandbox")) := by
  have h := notification_identity_policy
  refine ⟨h.1 sandboxConfig (some ("com.example")) (some ("Sandbox"))
      (some 1) (some 2) (by decide),
    h.2.1 productionConfig (some ("com.example")) (some ("Production"))
      (some 999) rfl rfl (by decide),
    h.2.2.1 productionConfig (some ("other.bundle")) (some ("Production"))
      (some 123) (by decide),
    h.2.2.2.1 productionConfig (some ("com.example")) (some ("Sandbox"))
      (some 123) rfl (fun _ => rfl) (by decide), ?_⟩
  have h5 := (h.2.2.2.2 eptPayloadSandbox
    (.obj [(("externalPurchaseId"), .str ("SANDBOX_123")),
           (("bundleId"), .str ("com.example"))])
    rfl rfl rfl).1 ("SANDBOX_123") rfl
  simpa using h5

/-- Helper: the chain phase's result component does not depend on the
verifier state or the current time (only the threaded state does). -/
theorem verifyJWTChainPhase_fst_indep (cfg : VerifierConfig) (js : JsPrims)
    (ex : Json → Int → Int) (p0 : String) (d : Json) (now now' : Int)
    (st st' : VerifierState) :
    (verifyJWTChainPhase cfg js ex p0 d now st).1
      = (verifyJWTChainPhase cfg js ex p0 d now' st').1 := by
  unfold verifyJWTChainPhase
  cases js.parseB64Json p0 with
  | none => rfl
  | some headerObj =>
    dsimp only
    cases x5cArray headerObj with
    | error e => rfl
    | ok chain =>
      dsimp only
      rcases chain with _ | ⟨c0, _ | ⟨c1, _ | ⟨c2, _ | ⟨c3, rest⟩⟩⟩⟩
      · rfl
      · rfl
      · rfl
      · dsimp only
        cases certBytes js c0 <;> cases certBytes js c1 <;> rfl
      · rfl

/-- Helper: verifyJWT's result component does not depend on the verifier
state or the current time. -/
theorem verifyJWT_fst_indep (cfg : VerifierConfig) (js : JsPrims)
    (validator : Json → Bool) (ex : Json → Int → Int) (jwt : String)
    (now now' : Int) (st st' : VerifierState) :
    (verifyJWT cfg js validator ex jwt now st).1
      = (verifyJWT cfg js validator ex jwt now' st').1 := by
  unfold verifyJWT
  rcases stringSplitDot jwt with _ | ⟨p0, _ | ⟨p1, _ | ⟨sg, _ | ⟨p3, rest⟩⟩⟩⟩ <;>
    try rfl
  dsimp only
  cases js.parseB64Json p1 with
  | none => rfl
  | some dec =>
    dsimp only
    cases hval : validator dec with
    | false => rfl
    | true =>
      by_cases he : cfg.environment = Environment.xcode ∨
          cfg.environment = Environment.localTesting
      · simp [he]
      · have hc := verifyJWTChainPhase_fst_indep cfg js ex p0 dec now now' st st'
        rcases h1 : verifyJWTChainPhase cfg js ex p0 dec now st with ⟨r1, s1⟩
        rcases h2 : verifyJWTChainPhase cfg js ex p0 dec now' st' with ⟨r2, s2⟩
        rw [h1, h2] at hc
        simp only at hc
        subst hc
        simp only [if_pos rfl, if_neg he, h1, h2]
        cases r1 with
        | ok v => rfl
        | error e => rfl

/-- Helper: verifyAndDecodeTransaction's result component does not depend on
the verifier state or the current time. -/
theorem verifyAndDecodeTransaction_fst_indep (cfg : VerifierConfig)
    (js : JsPrims) (validator : Json → Bool) (s : String) (now now' : Int)
    (st st' : VerifierState) :
    (verifyAndDecodeTransaction cfg js validator s now st).1
      = (verifyAndDecodeTransaction cfg js validator s now' st').1 := by
  unfold verifyAndDecodeTransaction
  have hc := verifyJWT_fst_indep cfg js validator extractSignedDate s now now' st st'
  rcases h1 : verifyJWT cfg js validator extractSignedDate s now st with ⟨r1, s1⟩
  rcases h2 : verifyJWT cfg js validator extractSignedDate s now' st' with ⟨r2, s2⟩
  rw [h1, h2] at hc
  simp only at hc
  subst hc
  cases r1 with
  | error e => rfl
  | ok d =>
    by_cases hb : d.strField ("bundleId") ≠ some cfg.bundleId
    · simp [hb]
    · by_cases he : d.strField ("environment") ≠ some (envString cfg.environment)
      · simp [hb, he]
      · simp [hb, he]

/-- Helper: verifyAndDecodeRenewalInfo's result component does not depend on
the verifier state or the current time. -/
theorem verifyAndDecodeRenewalInfo_fst_indep (cfg : VerifierConfig)
    (js : JsPrims) (validator : Json → Bool) (s : String) (now now' : Int)
    (st st' : VerifierState) :
    (verifyAndDecodeRenewalInfo cfg js validator s now st).1
      = (verifyAndDecodeRenewalInfo cfg js validator s now' st').1 := by
  unfold verifyAndDecodeRenewalInfo
  have hc := verifyJWT_fst_indep cfg js validator extractSignedDate s now now' st st'
  rcases h1 : verifyJWT cfg js validator extractSignedDate s now st with ⟨r1, s1⟩
  rcases h2 : verifyJWT cfg js validator extractSignedDate s now' st' with ⟨r2, s2⟩
  rw [h1, h2] at hc
  simp only at hc
  subst hc
  cases r1 with
  | error e => rfl
  | ok d =>
    by_cases he : some (envString cfg.environment) = d.strField ("environment")
    · simp [he]
    · simp [he]

/-- Helper: verifyAndDecodeNotification's result component does not depend
on the verifier state or the current time. -/
theorem verifyAndDecodeNotification_fst_indep (cfg : VerifierConfig)
    (js : JsPrims) (validator : Json → Bool) (s : String) (now now' : Int)
    (st st' : VerifierState) :
    (verifyAndDecodeNotification cfg js validator s now st).1
      = (verifyAndDecodeNotification cfg js validator s now' st').1 := by
  unfold verifyAndDecodeNotification
  have hc := verifyJWT_fst_indep cfg js validator extractSignedDate s now now' st st'
  rcases h1 : verifyJWT cfg js validator extractSignedDate s now st with ⟨r1, s1⟩
  rcases h2 : verifyJWT cfg js validator extractSignedDate s now' st' with ⟨r2, s2⟩
  rw [h1, h2] at hc
  simp only at hc
  subst hc
  cases r1 with
  | error e => rfl
  | ok d =>
    dsimp only
    cases extractNotificationIdentity d with
    | error e => rfl
    | ok ids =>
      dsimp only
      cases verifyNotification cfg ids.2.1 ids.1 ids.2.2 with
      | error e => rfl
      | ok u => rfl

/-- Helper: verifyAndDecodeAppTransaction's result component does not depend
on the verifier state or the current time. -/
theorem verifyAndDecodeAppTransaction_fst_indep (cfg : VerifierConfig)
    (js : JsPrims) (validator : Json → Bool) (s : String) (now now' : Int)
    (st st' : VerifierState) :
    (verifyAndDecodeAppTransaction cfg js validator s now st).1
      = (verifyAndDecodeAppTransaction cfg js validator s now' st').1 := by
  unfold verifyAndDecodeAppTransaction
  have hc := verifyJWT_fst_indep cfg js validator appTransactionSignedDate s now now' st st'
  rcases h1 : verifyJWT cfg js validator appTransactionSignedDate s now st with ⟨r1, s1⟩
  rcases h2 : verifyJWT cfg js validator appTransactionSignedDate s now' st' with ⟨r2, s2⟩
  rw [h1, h2] at hc
  simp only at hc
  subst hc
  cases r1 with
  | error e => rfl
  | ok d =>
    by_cases hb : some cfg.bundleId ≠ d.strField ("bundleId") ∨
        (cfg.environment = .production ∧
          cfg.appAppleId ≠ d.numField ("appAppleId"))
    · simp [hb]
    · by_cases he : some (envString cfg.environment) ≠ d.strField ("receiptType")
      · simp [hb, he]
      · simp [hb, he]

/-- C9: idempotence — whenever a typed verify operation succeeds on an input,
running the same operation again on the same verifier (from the state the
first call left behind, at any later time) succeeds with the same decoded
payload. -/
theorem verify_idempotent (cfg : VerifierConfig) (js : JsPrims)
    (validator : Json → Bool) (s : String) (now now' : Int)
    (st : VerifierState) :
    (∀ t st₁, verifyAndDecodeTransaction cfg js validator s now st = (.ok t, st₁) →
      (verifyAndDecodeTransaction cfg js validator s now' st₁).1 = .ok t) ∧
    (∀ t st₁, verifyAndDecodeRenewalInfo cfg js validator s now st = (.ok t, st₁) →
      (verifyAndDecodeRenewalInfo cfg js validator s now' st₁).1 = .ok t) ∧
    (∀ t st₁, verifyAndDecodeNotification cfg js validator s now st = (.ok t, st₁) →
      (verifyAndDecodeNotification cfg js validator s now' st₁).1 = .ok t) ∧
    (∀ t st₁, verifyAndDecodeAppTransaction cfg js validator s now st = (.ok t, st₁) →
      (verifyAndDecodeAppTransaction cfg js validator s now' st₁).1 = .ok t) := by
  refine ⟨?_, ?_, ?_, ?_⟩ <;> intro t st₁ h
  · rw [verifyAndDecodeTransaction_fst_indep cfg js validator s now' now st₁ st, h]
  · rw [verifyAndDecodeRenewalInfo_fst_indep cfg js validator s now' now st₁ st, h]
  · rw [verifyAndDecodeNotification_fst_indep cfg js validator s now' now st₁ st, h]
  · rw [verifyAndDecodeAppTransaction_fst_indep cfg js validator s now' now st₁ st, h]

/-- Witness for C9: concrete repeated verifications (transaction and renewal
info in sandbox, notification and app transaction in xcode) return the
same payloads again. -/
theorem verify_idempotent_witness :
    (verifyAndDecodeTransaction sandboxConfig fixturePrims acceptAll
        ("H3.P1.sig") 60000
        (verifyAndDecodeTransaction sandboxConfig fixturePrims acceptAll
          ("H3.P1.sig") 0 st0).2).1 = .ok payload1 ∧
    (verifyAndDecodeRenewalInfo sandboxConfig fixturePrims acceptAll
        ("H3.P1.sig") 60000
        (verifyAndDecodeRenewalInfo sandboxConfig fixturePrims acceptAll
          ("H3.P1.sig") 0 st0).2).1 = .ok payload1 ∧
    (verifyAndDecodeNotification xcodeConfig fixturePrims acceptAll
        ("h.PX.s") 60000
        (verifyAndDecodeNotification xcodeConfig fixturePrims acceptAll
          ("h.PX.s") 0 st0).2).1 = .ok xcodePayload ∧
    (verifyAndDecodeAppTransaction xcodeConfig fixturePrims acceptAll
        ("h.PX.s") 60000
        (verifyAndDecodeAppTransaction xcodeConfig fixturePrims acceptAll
          ("h.PX.s") 0 st0).2).1 = .ok xcodePayload :=
  ⟨(verify_idempotent sandboxConfig fixturePrims acceptAll ("H3.P1.sig")
      0 60000 st0).1 payload1 ⟨[], 1⟩ rfl,
   (verify_idempotent sandboxConfig fixturePrims acceptAll ("H3.P1.sig")
      0 60000 st0).2.1 payload1 ⟨[], 1⟩ rfl,
   (verify_idempotent xcodeConfig fixturePrims acceptAll ("h.PX.s")
      0 60000 st0).2.2.1 xcodePayload st0 rfl,
   (verify_idempotent xcodeConfig fixturePrims acceptAll ("h.PX.s")
      0 60000 st0).2.2.2 xcodePayload st0 rfl⟩

end AppStore
